import Mathlib

/-!
Verification development for the AstraMindOS server core: the in-memory
storage layer (server/storage.ts, class MemStorage), the AI gateway
(server/gemini.ts), and the request orchestrator (server/routes.ts).

Modelling conventions (shallow embedding):
- Entity ids are opaque unique strings (UUIDs) in the source; they are
  modelled as natural numbers minted from a counter that starts at 1, so
  a generated id is never 0.  The JavaScript falsiness test on an id
  (an absent, null or empty-string conversationId is falsy) is modelled
  as the id being absent or equal to 0.  Generated ids are never falsy
  in the source (a UUID is a non-empty string), matching the model.
- A JavaScript Map keyed by id, whose stored records always carry their
  key in their id field, is modelled as the list of records in insertion
  order, looked up through the id field.  Map.set on an existing key
  replaces the record in place, modelled by List.map.
- Timestamps (new Date()) are ambient inputs: every storage operation
  takes the current time as an explicit Nat argument, and route handlers
  take one argument per Date() call they perform, in program order.
- Array.prototype.sort with a comparator is required by the language
  specification to be stable; it is modelled by List.insertionSort,
  which is a stable sort.
- The external generative-text provider is an oracle parameter: for the
  chat path a function from the submitted transcript to either a failure
  or the returned text, for the summary path a function from the prompt
  to either a thrown error or the parsed array of strings.
- Fallible handlers return an explicit result datatype mirroring the
  HTTP statuses used by the routes (200 / 400 / 404 / 500).
-/

namespace AstraMind

/-! Entity records, from shared/schema.ts. -/

/-- Conversation record: id, title, createdAt, updatedAt. -/
structure Conversation where
  id : Nat
  title : String
  createdAt : Nat
  updatedAt : Nat
deriving DecidableEq

/-- Message record: id, conversationId, role, content, createdAt. -/
structure Message where
  id : Nat
  conversationId : Nat
  role : String
  content : String
  createdAt : Nat
deriving DecidableEq

/-- Goal record: id, title, optional description, category, progress,
optional targetDate, completed, createdAt, updatedAt. -/
structure Goal where
  id : Nat
  title : String
  description : Option String
  category : String
  progress : Int
  targetDate : Option Nat
  completed : Bool
  createdAt : Nat
  updatedAt : Nat
deriving DecidableEq

/-- Note record: id, title, content, tags, createdAt, updatedAt. -/
structure Note where
  id : Nat
  title : String
  content : String
  tags : List String
  createdAt : Nat
  updatedAt : Nat
deriving DecidableEq

/-- Activity record: id, type, description, createdAt. -/
structure Activity where
  id : Nat
  type : String
  description : String
  createdAt : Nat
deriving DecidableEq

/-! Insert payloads (the zod insert schemas omit id and the timestamps). -/

/-- InsertConversation payload. -/
structure InsertConversation where
  title : String
deriving DecidableEq

/-- InsertMessage payload. -/
structure InsertMessage where
  conversationId : Nat
  role : String
  content : String
deriving DecidableEq

/-- InsertGoal payload; progress and completed may be omitted and are
defaulted by MemStorage.createGoal. -/
structure InsertGoal where
  title : String
  description : Option String := none
  category : String
  progress : Option Int := none
  targetDate : Option Nat := none
  completed : Option Bool := none
deriving DecidableEq

/-- InsertNote payload; tags may be omitted and is defaulted by
MemStorage.createNote. -/
structure InsertNote where
  title : String
  content : String
  tags : Option (List String) := none
deriving DecidableEq

/-- InsertActivity payload. -/
structure InsertActivity where
  type : String
  description : String
deriving DecidableEq

/-! Partial-update payloads, the TypeScript type Partial of the entity:
every field optional, where a present field overrides the stored one via
object spread.  The update functions force id and updatedAt afterwards,
so the id and updatedAt patch fields are declared but never read. -/

/-- Partial Conversation patch. -/
structure ConversationPatch where
  id : Option Nat := none
  title : Option String := none
  createdAt : Option Nat := none
  updatedAt : Option Nat := none
deriving DecidableEq

/-- Partial Goal patch. -/
structure GoalPatch where
  id : Option Nat := none
  title : Option String := none
  description : Option (Option String) := none
  category : Option String := none
  progress : Option Int := none
  targetDate : Option (Option Nat) := none
  completed : Option Bool := none
  createdAt : Option Nat := none
  updatedAt : Option Nat := none
deriving DecidableEq

/-- Partial Note patch. -/
structure NotePatch where
  id : Option Nat := none
  title : Option String := none
  content : Option String := none
  tags : Option (List String) := none
  createdAt : Option Nat := none
  updatedAt : Option Nat := none
deriving DecidableEq

/-! The in-memory store, class MemStorage of server/storage.ts.  The five
Maps become five lists in insertion order; nextId is the id supply. -/

/-- State of the MemStorage instance. -/
structure MemStorage where
  conversations : List Conversation := []
  messages : List Message := []
  goals : List Goal := []
  notes : List Note := []
  activities : List Activity := []
  nextId : Nat := 1
deriving DecidableEq

/-- The freshly constructed store: five empty maps. -/
def MemStorage.empty : MemStorage := {}

/-- Well-formedness: every stored id, and every message foreign key, was
minted by the id supply, hence is below nextId (and in particular differs
from every id minted later).  This models the uniqueness of UUIDs. -/
def MemStorage.WF (s : MemStorage) : Prop :=
  (∀ c ∈ s.conversations, c.id < s.nextId) ∧
  (∀ m ∈ s.messages, m.id < s.nextId ∧ m.conversationId < s.nextId) ∧
  (∀ g ∈ s.goals, g.id < s.nextId) ∧
  (∀ n ∈ s.notes, n.id < s.nextId) ∧
  (∀ a ∈ s.activities, a.id < s.nextId)

instance (s : MemStorage) : Decidable s.WF := by
  unfold MemStorage.WF; infer_instance

/-! Storage operations used by the claims, translated one-to-one from
server/storage.ts. -/

/-- MemStorage.getConversation: point lookup by id. -/
def MemStorage.getConversation (s : MemStorage) (id : Nat) : Option Conversation :=
  s.conversations.find? (fun c => c.id == id)

/-- MemStorage.createConversation: mint an id, stamp both timestamps with
the current time, store and return the record. -/
def MemStorage.createConversation (s : MemStorage) (ins : InsertConversation)
    (now : Nat) : Conversation × MemStorage :=
  let c : Conversation :=
    { id := s.nextId, title := ins.title, createdAt := now, updatedAt := now }
  (c, { s with conversations := s.conversations ++ [c], nextId := s.nextId + 1 })

/-- Spread of a Conversation patch over a stored record, with id forced
back to the stored id and updatedAt forced to the current time. -/
def mergeConversation (conversation : Conversation) (data : ConversationPatch)
    (now : Nat) : Conversation :=
  { id := conversation.id
    title := data.title.getD conversation.title
    createdAt := data.createdAt.getD conversation.createdAt
    updatedAt := now }

/-- MemStorage.updateConversation: not-found when the id is absent;
otherwise the spread of the patch over the stored record. -/
def MemStorage.updateConversation (s : MemStorage) (id : Nat)
    (data : ConversationPatch) (now : Nat) : Option Conversation × MemStorage :=
  match s.conversations.find? (fun c => c.id == id) with
  | none => (none, s)
  | some conversation =>
    let updated := mergeConversation conversation data now
    (some updated,
     { s with conversations :=
        s.conversations.map (fun c => if c.id == id then updated else c) })

/-- Non-strict comparison on message creation times, the comparator of
MemStorage.getMessages. -/
def msgCreatedLe (a b : Message) : Prop := a.createdAt ≤ b.createdAt

instance : DecidableRel msgCreatedLe := fun a b => Nat.decLe a.createdAt b.createdAt

instance : IsTotal Message msgCreatedLe :=
  ⟨fun a b => Nat.le_total a.createdAt b.createdAt⟩

instance : IsTrans Message msgCreatedLe :=
  ⟨fun _ _ _ h1 h2 => Nat.le_trans h1 h2⟩

/-- MemStorage.getMessages: the messages of one conversation, sorted by
createdAt ascending with a stable sort. -/
def MemStorage.getMessages (s : MemStorage) (conversationId : Nat) : List Message :=
  List.insertionSort msgCreatedLe
    (s.messages.filter (fun m => m.conversationId == conversationId))

/-- MemStorage.createMessage: mint an id, stamp createdAt, store and
return the record. -/
def MemStorage.createMessage (s : MemStorage) (ins : InsertMessage)
    (now : Nat) : Message × MemStorage :=
  let m : Message :=
    { id := s.nextId, conversationId := ins.conversationId, role := ins.role,
      content := ins.content, createdAt := now }
  (m, { s with messages := s.messages ++ [m], nextId := s.nextId + 1 })

/-- MemStorage.getGoal: point lookup by id. -/
def MemStorage.getGoal (s : MemStorage) (id : Nat) : Option Goal :=
  s.goals.find? (fun g => g.id == id)

/-- MemStorage.createGoal: mint an id, apply the declared defaults
(progress 0, completed false), stamp both timestamps, store and return. -/
def MemStorage.createGoal (s : MemStorage) (ins : InsertGoal)
    (now : Nat) : Goal × MemStorage :=
  let g : Goal :=
    { id := s.nextId, title := ins.title, description := ins.description,
      category := ins.category, progress := ins.progress.getD 0,
      targetDate := ins.targetDate, completed := ins.completed.getD false,
      createdAt := now, updatedAt := now }
  (g, { s with goals := s.goals ++ [g], nextId := s.nextId + 1 })

/-- Spread of a Goal patch over a stored record, with id forced back to
the stored id and updatedAt forced to the current time. -/
def mergeGoal (goal : Goal) (data : GoalPatch) (now : Nat) : Goal :=
  { id := goal.id
    title := data.title.getD goal.title
    description := data.description.getD goal.description
    category := data.category.getD goal.category
    progress := data.progress.getD goal.progress
    targetDate := data.targetDate.getD goal.targetDate
    completed := data.completed.getD goal.completed
    createdAt := data.createdAt.getD goal.createdAt
    updatedAt := now }

/-- MemStorage.updateGoal: not-found when the id is absent; otherwise the
spread of the patch over the stored record. -/
def MemStorage.updateGoal (s : MemStorage) (id : Nat)
    (data : GoalPatch) (now : Nat) : Option Goal × MemStorage :=
  match s.goals.find? (fun g => g.id == id) with
  | none => (none, s)
  | some goal =>
    let updated := mergeGoal goal data now
    (some updated,
     { s with goals := s.goals.map (fun g => if g.id == id then updated else g) })

/-- MemStorage.getNote: point lookup by id. -/
def MemStorage.getNote (s : MemStorage) (id : Nat) : Option Note :=
  s.notes.find? (fun n => n.id == id)

/-- MemStorage.createNote: mint an id, default tags to the empty list,
stamp both timestamps, store and return. -/
def MemStorage.createNote (s : MemStorage) (ins : InsertNote)
    (now : Nat) : Note × MemStorage :=
  let n : Note :=
    { id := s.nextId, title := ins.title, content := ins.content,
      tags := ins.tags.getD [], createdAt := now, updatedAt := now }
  (n, { s with notes := s.notes ++ [n], nextId := s.nextId + 1 })

/-- Spread of a Note patch over a stored record, with id forced back to
the stored id and updatedAt forced to the current time. -/
def mergeNote (note : Note) (data : NotePatch) (now : Nat) : Note :=
  { id := note.id
    title := data.title.getD note.title
    content := data.content.getD note.content
    tags := data.tags.getD note.tags
    createdAt := data.createdAt.getD note.createdAt
    updatedAt := now }

/-- MemStorage.updateNote: not-found when the id is absent; otherwise the
spread of the patch over the stored record. -/
def MemStorage.updateNote (s : MemStorage) (id : Nat)
    (data : NotePatch) (now : Nat) : Option Note × MemStorage :=
  match s.notes.find? (fun n => n.id == id) with
  | none => (none, s)
  | some note =>
    let updated := mergeNote note data now
    (some updated,
     { s with notes := s.notes.map (fun n => if n.id == id then updated else n) })

/-- MemStorage.createActivity: mint an id, stamp createdAt, store and
return the record. -/
def MemStorage.createActivity (s : MemStorage) (ins : InsertActivity)
    (now : Nat) : Activity × MemStorage :=
  let a : Activity :=
    { id := s.nextId, type := ins.type, description := ins.description,
      createdAt := now }
  (a, { s with activities := s.activities ++ [a], nextId := s.nextId + 1 })

/-! The AI gateway, server/gemini.ts.  The external provider is an
oracle parameter. -/

/-- Oracle for the chat provider call: from the submitted transcript
(role, text pairs) to either a thrown transport error or the text field
of the response, with the empty string standing for a missing text. -/
abbrev ChatProvider := List (String × String) → Except Unit String

/-- Fallback sentence returned by chatWithAI when the provider yields no
text. -/
def chatFallbackText : String :=
  "I\x27m sorry, I couldn\x27t generate a response. Please try again."

/-- chatWithAI: formats the history (assistant turns become model turns),
appends the current message, submits, and returns the text or the fixed
fallback sentence; a thrown provider error is rethrown as the distinct
generation-failed error. -/
def chatWithAI (message : String) (conversationHistory : List (String × String))
    (provider : ChatProvider) : Except String String :=
  let contents :=
    (conversationHistory.map
      (fun msg => (if msg.1 == "assistant" then "model" else "user", msg.2)))
    ++ [("user", message)]
  match provider contents with
  | .error _ => .error "Failed to get AI response"
  | .ok t => .ok (if t == "" then chatFallbackText else t)

/-- Outcome of the summary provider call combined with JSON.parse of its
text: throws covers a thrown provider call and a parse failure (both
reach the same catch), parsed carries the array-of-strings result (an
empty or missing text parses to the empty array). -/
inductive GenOutcome where
  | throws
  | parsed (items : List String)
deriving DecidableEq

/-- Oracle for the summary provider call, from the submitted prompt. -/
abbrev SummaryProvider := String → GenOutcome

/-- Prompt submitted by generateDailySummary, interpolating the three
activity counters. -/
def dailySummaryPrompt (chats goals notes : Nat) : String :=
  "Generate 3-4 brief, encouraging insights for a user\x27s daily summary based on their activity:\n" ++
  "- Chat conversations: " ++ toString chats ++ "\n" ++
  "- Goals worked on: " ++ toString goals ++ "\n" ++
  "- Notes created: " ++ toString notes ++ "\n\n" ++
  "Provide insights as a JSON array of strings. Focus on productivity patterns, suggestions, and encouragement.\n" ++
  "Example: [\"Great engagement today with " ++ toString chats ++
  " conversations!\", \"Keep the momentum on your " ++ toString goals ++
  " goals\", \"Your " ++ toString notes ++ " notes show active learning\"]"

/-- Fallback insights returned when the provider call or the parse
throws (the catch branch of generateDailySummary). -/
def summaryCatchFallback : List String :=
  ["Keep building your momentum!", "Great progress today."]

/-- Fallback insights returned when the parsed array is empty. -/
def summaryEmptyFallback : List String :=
  ["Keep up the great work!", "Every step forward counts."]

/-- generateDailySummary: submit the counters prompt; on a throw return
the catch fallback, on an empty parse result return the empty-parse
fallback, otherwise return the parsed insights. -/
def generateDailySummary (chats goals notes : Nat)
    (provider : SummaryProvider) : List String :=
  match provider (dailySummaryPrompt chats goals notes) with
  | .throws => summaryCatchFallback
  | .parsed insights =>
    if insights.length > 0 then insights else summaryEmptyFallback

/-! The request orchestrator, server/routes.ts.  Handler results mirror
the HTTP statuses used by the routes. -/

/-- Result of a route handler: 200 with a value, or 400 / 404 / 500 with
an error string. -/
inductive ApiResult (α : Type) where
  | ok (value : α)
  | badRequest (error : String)
  | notFound (error : String)
  | serverError (error : String)
deriving DecidableEq

/-- Body of POST /api/chat: message must be a non-empty string;
conversationId is optional, with 0 modelling a present but falsy value
(such as the empty string). -/
structure ChatRequest where
  message : Option String := none
  conversationId : Option Nat := none
deriving DecidableEq

/-- ChatResponse payload of POST /api/chat. -/
structure ChatResponse where
  message : Message
  conversationId : Nat
deriving DecidableEq

/-- Title of an auto-created conversation: the first 50 code units of
the message, with an ellipsis suffix when the message is longer.
String.prototype.substring is modelled on the character list. -/
def jsSubstring (s : String) (n : Nat) : String := ⟨s.data.take n⟩

/-- Title computed by the chat handler for a fresh conversation. -/
def chatAutoTitle (message : String) : String :=
  jsSubstring message 50 ++ (if 50 < message.length then "..." else "")

/-- Description of the activity logged by the chat handler: a 60-unit
excerpt of the user message with an ellipsis suffix when truncated. -/
def chatActivityDescription (message : String) : String :=
  "Had a conversation about: " ++ jsSubstring message 60 ++
  (if 60 < message.length then "..." else "")

/-- Conversation-creation block of the chat handler: create a fresh
conversation titled from the message and continue with its id. -/
def chatResolveCreate (s : MemStorage) (message : String) (tConv : Nat) :
    Nat × MemStorage :=
  let r := s.createConversation { title := chatAutoTitle message } tConv
  (r.1.id, r.2)

/-- Steps 3 to 8 of the chat handler: persist the user message, load the
history without the just-inserted message, call the gateway, persist the
reply, touch the conversation timestamp, log the chat activity.  A
gateway throw reaches the catch branch, after the user message was
persisted. -/
def chatSteps (s : MemStorage) (convId : Nat) (message : String)
    (provider : ChatProvider) (tUser tAi tTouch tUpd tAct : Nat) :
    ApiResult ChatResponse × MemStorage :=
  let r1 := s.createMessage
    { conversationId := convId, role := "user", content := message } tUser
  let userMessage := r1.1
  let s1 := r1.2
  let msgs := s1.getMessages convId
  let conversationHistory :=
    (msgs.filter (fun m => m.id != userMessage.id)).map
      (fun m => (m.role, m.content))
  match chatWithAI message conversationHistory provider with
  | .error _ => (.serverError "Failed to process chat message", s1)
  | .ok aiResponse =>
    let r2 := s1.createMessage
      { conversationId := convId, role := "assistant", content := aiResponse } tAi
    let aiMessage := r2.1
    let s2 := r2.2
    let s3 := (s2.updateConversation convId { updatedAt := some tTouch } tUpd).2
    let s4 := (s3.createActivity
      { type := "chat", description := chatActivityDescription message } tAct).2
    (.ok { message := aiMessage, conversationId := convId }, s4)

/-- POST /api/chat.  A missing or empty message is a 400.  A falsy
conversationId (absent, or 0 modelling the empty string) triggers
conversation creation; a truthy one is looked up and a miss is a 404.
The six time arguments are the Date() calls of the handler in program
order: conversation creation, user message, assistant message, the
updatedAt patch value, the updateConversation stamp, the activity. -/
def postChat (s : MemStorage) (req : ChatRequest) (provider : ChatProvider)
    (tConv tUser tAi tTouch tUpd tAct : Nat) :
    ApiResult ChatResponse × MemStorage :=
  match req.message with
  | none => (.badRequest "Message is required", s)
  | some message =>
    if message == "" then (.badRequest "Message is required", s)
    else
      match req.conversationId with
      | none =>
        let r := chatResolveCreate s message tConv
        chatSteps r.2 r.1 message provider tUser tAi tTouch tUpd tAct
      | some convId =>
        if convId == 0 then
          let r := chatResolveCreate s message tConv
          chatSteps r.2 r.1 message provider tUser tAi tTouch tUpd tAct
        else
          match s.getConversation convId with
          | none => (.notFound "Conversation not found", s)
          | some _ => chatSteps s convId message provider tUser tAi tTouch tUpd tAct

/-- PATCH /api/goals/:id: load the prior record (404 on a miss), apply
the unvalidated patch, then log exactly one activity, goal_completed
when the body sets completed to true while the prior record had it
false, goal_updated otherwise. -/
def patchGoal (s : MemStorage) (id : Nat) (body : GoalPatch)
    (tUpd tAct : Nat) : ApiResult Goal × MemStorage :=
  match s.getGoal id with
  | none => (.notFound "Goal not found", s)
  | some existingGoal =>
    match s.updateGoal id body tUpd with
    | (none, s1) => (.notFound "Goal not found", s1)
    | (some goal, s1) =>
      if body.completed == some true && !existingGoal.completed then
        (.ok goal, (s1.createActivity
          { type := "goal_completed",
            description := "Completed goal: " ++ goal.title } tAct).2)
      else
        (.ok goal, (s1.createActivity
          { type := "goal_updated",
            description := "Updated goal: " ++ goal.title } tAct).2)

/-- PATCH /api/notes/:id: apply the unvalidated patch (404 on a miss),
then log exactly one note_updated activity. -/
def patchNote (s : MemStorage) (id : Nat) (body : NotePatch)
    (tUpd tAct : Nat) : ApiResult Note × MemStorage :=
  match s.updateNote id body tUpd with
  | (none, s1) => (.notFound "Note not found", s1)
  | (some note, s1) =>
    (.ok note, (s1.createActivity
      { type := "note_updated",
        description := "Updated note: " ++ note.title } tAct).2)

/-! Runtime-level model of the unvalidated PATCH bodies.  The PATCH
routes for goals and notes hand req.body to the storage update without
any schema parse, so at runtime the body may carry fields of any JSON
type and the object spread merges them into the stored record verbatim.
This is modelled with untyped JavaScript values and records. -/

/-- Runtime JavaScript value: undefined, null, boolean, number, string,
Date, or array. -/
inductive JVal where
  | jundefined
  | jnull
  | jbool (b : Bool)
  | jnum (n : Int)
  | jstr (s : String)
  | jdate (t : Nat)
  | jarr (elems : List JVal)

/-- Runtime JavaScript object: own enumerable properties in insertion
order. -/
abbrev JRecord := List (String × JVal)

/-- Property access, yielding undefined for a missing key. -/
def jget (r : JRecord) (k : String) : JVal :=
  match r.find? (fun p => p.1 == k) with
  | some p => p.2
  | none => .jundefined

/-- Whether the object has the key as an own property. -/
def jhas (r : JRecord) (k : String) : Bool :=
  (r.find? (fun p => p.1 == k)).isSome

/-- Property assignment: overwrite in place when the key exists,
append otherwise (JavaScript objects keep first-insertion key order). -/
def jset (r : JRecord) (k : String) (v : JVal) : JRecord :=
  if jhas r k then r.map (fun p => if p.1 == k then (k, v) else p)
  else r ++ [(k, v)]

/-- Object spread of the patch over the record. -/
def jmerge (r patch : JRecord) : JRecord :=
  patch.foldl (fun acc p => jset acc p.1 p.2) r

/-- Stringification of a scalar value, used for flat array elements. -/
def jsScalarToString : JVal → String
  | .jundefined => "undefined"
  | .jnull => "null"
  | .jbool b => if b then "true" else "false"
  | .jnum n => toString n
  | .jstr s => s
  | .jdate t => "Date " ++ toString t
  | .jarr _ => ""

/-- Template-literal stringification of a runtime value (array
stringification is modelled for flat arrays only; no claim depends on
nested arrays). -/
def jsToString : JVal → String
  | .jarr elems => String.intercalate "," (elems.map jsScalarToString)
  | v => jsScalarToString v

/-- Strict equality of a runtime value with the boolean true, the test
req.body.completed === true of the goal PATCH route. -/
def jvalIsTrue : JVal → Bool
  | .jbool b => b
  | _ => false

/-- JavaScript truthiness of a runtime value. -/
def jsTruthy : JVal → Bool
  | .jundefined => false
  | .jnull => false
  | .jbool b => b
  | .jnum n => n != 0
  | .jstr s => s != ""
  | .jdate _ => true
  | .jarr _ => true

/-- Runtime view of the store slices touched by the goal and note PATCH
routes: records keyed by their id string, plus the activity log. -/
structure RawStorage where
  notes : List (String × JRecord) := []
  goals : List (String × JRecord) := []
  activities : List JRecord := []
  nextId : Nat := 1

/-- MemStorage.createActivity at runtime level: spread the payload, then
set id and createdAt. -/
def RawStorage.createActivity (s : RawStorage) (ins : JRecord) (now : Nat) :
    RawStorage :=
  let record := jset (jset ins "id" (.jstr (toString s.nextId))) "createdAt" (.jdate now)
  { s with activities := s.activities ++ [record], nextId := s.nextId + 1 }

/-- MemStorage.updateNote at runtime level: spread the body over the
stored record, force id back and updatedAt to the current time. -/
def RawStorage.updateNote (s : RawStorage) (id : String) (data : JRecord)
    (now : Nat) : Option JRecord × RawStorage :=
  match s.notes.find? (fun p => p.1 == id) with
  | none => (none, s)
  | some p =>
    let note := p.2
    let updated := jset (jset (jmerge note data) "id" (jget note "id"))
      "updatedAt" (.jdate now)
    (some updated,
     { s with notes := s.notes.map (fun q => if q.1 == id then (q.1, updated) else q) })

/-- MemStorage.updateGoal at runtime level. -/
def RawStorage.updateGoal (s : RawStorage) (id : String) (data : JRecord)
    (now : Nat) : Option JRecord × RawStorage :=
  match s.goals.find? (fun p => p.1 == id) with
  | none => (none, s)
  | some p =>
    let goal := p.2
    let updated := jset (jset (jmerge goal data) "id" (jget goal "id"))
      "updatedAt" (.jdate now)
    (some updated,
     { s with goals := s.goals.map (fun q => if q.1 == id then (q.1, updated) else q) })

/-- PATCH /api/notes/:id at runtime level: no schema parse of the body;
update, then log one note_updated activity. -/
def patchNoteRaw (s : RawStorage) (id : String) (body : JRecord)
    (tUpd tAct : Nat) : ApiResult JRecord × RawStorage :=
  match s.updateNote id body tUpd with
  | (none, s1) => (.notFound "Note not found", s1)
  | (some note, s1) =>
    (.ok note, s1.createActivity
      [("type", .jstr "note_updated"),
       ("description", .jstr ("Updated note: " ++ jsToString (jget note "title")))] tAct)

/-- PATCH /api/goals/:id at runtime level: no schema parse of the body;
existing-record check, update, then log one activity whose type is
goal_completed exactly when the body has completed strictly equal to
true and the prior completed field is falsy. -/
def patchGoalRaw (s : RawStorage) (id : String) (body : JRecord)
    (tUpd tAct : Nat) : ApiResult JRecord × RawStorage :=
  match s.goals.find? (fun p => p.1 == id) with
  | none => (.notFound "Goal not found", s)
  | some p =>
    let existingGoal := p.2
    match s.updateGoal id body tUpd with
    | (none, s1) => (.notFound "Goal not found", s1)
    | (some goal, s1) =>
      if jvalIsTrue (jget body "completed") && !(jsTruthy (jget existingGoal "completed")) then
        (.ok goal, s1.createActivity
          [("type", .jstr "goal_completed"),
           ("description", .jstr ("Completed goal: " ++ jsToString (jget goal "title")))] tAct)
      else
        (.ok goal, s1.createActivity
          [("type", .jstr "goal_updated"),
           ("description", .jstr ("Updated goal: " ++ jsToString (jget goal "title")))] tAct)

/-- Conformance of a runtime body to the zod insert schema of notes
(title and content strings, tags an optional nullable array of
strings); unknown keys are stripped, not rejected, by the schema. -/
def noteBodyConforms (body : JRecord) : Bool :=
  (match jget body "title" with | .jstr _ => true | _ => false) &&
  (match jget body "content" with | .jstr _ => true | _ => false) &&
  (match jget body "tags" with
   | .jundefined => true
   | .jnull => true
   | .jarr elems => elems.all (fun v => match v with | .jstr _ => true | _ => false)
   | _ => false)

/-! Shared helper lemmas about id freshness. -/

/-- A lookup for an id at least as large as every id in the list misses. -/
theorem find?_beq_eq_none {α : Type} (f : α → Nat) (l : List α) (n : Nat)
    (h : ∀ x ∈ l, f x < n) : l.find? (fun x => f x == n) = none := by
  rw [List.find?_eq_none]
  intro x hx
  simp only [beq_iff_eq]
  exact Nat.ne_of_lt (h x hx)

/-- Replacing the entry with an id larger than every stored id does
nothing. -/
theorem map_if_beq_eq_self {α : Type} (f : α → Nat) (u : α) (l : List α) (n : Nat)
    (h : ∀ x ∈ l, f x < n) :
    l.map (fun x => if f x == n then u else x) = l := by
  induction l with
  | nil => rfl
  | cons a as ih =>
    simp only [List.map_cons]
    rw [if_neg, ih (fun x hx => h x (List.mem_cons_of_mem a hx))]
    simp only [beq_iff_eq]
    exact Nat.ne_of_lt (h a (List.mem_cons_self a as))

/-- Variant of the replacement no-op lemma with a propositional
equality test. -/
theorem map_if_eq_eq_self {α : Type} (f : α → Nat) (u : α) (l : List α) (n : Nat)
    (h : ∀ x ∈ l, f x < n) :
    l.map (fun x => if f x = n then u else x) = l := by
  induction l with
  | nil => rfl
  | cons a as ih =>
    simp only [List.map_cons]
    rw [if_neg (Nat.ne_of_lt (h a (List.mem_cons_self a as))),
      ih (fun x hx => h x (List.mem_cons_of_mem a hx))]

/-- Filtering for an id larger than every stored id yields nothing. -/
theorem filter_beq_eq_nil {α : Type} (f : α → Nat) (l : List α) (n : Nat)
    (h : ∀ x ∈ l, f x < n) : l.filter (fun x => f x == n) = [] := by
  rw [List.filter_eq_nil_iff]
  intro x hx
  simp only [beq_iff_eq]
  exact Nat.ne_of_lt (h x hx)

/-! Claim theorems. -/

/-- Claim C9: updating any of the three patchable entity kinds with the
empty patch refreshes updatedAt to the current time and stores and
returns a record whose every other field equals the previously stored
value. -/
theorem update_with_empty_patch_refreshes_only_updatedAt
    (s : MemStorage) (id now : Nat) :
    (∀ c, s.getConversation id = some c →
      s.updateConversation id {} now =
        (some { c with updatedAt := now },
         { s with conversations := s.conversations.map (fun y => if y.id == id then { c with updatedAt := now } else y) })) ∧
    (∀ g, s.getGoal id = some g →
      s.updateGoal id {} now =
        (some { g with updatedAt := now },
         { s with goals := s.goals.map (fun y => if y.id == id then { g with updatedAt := now } else y) })) ∧
    (∀ n, s.getNote id = some n →
      s.updateNote id {} now =
        (some { n with updatedAt := now },
         { s with notes := s.notes.map (fun y => if y.id == id then { n with updatedAt := now } else y) })) := by
  refine ⟨fun c hc => ?_, fun g hg => ?_, fun n hn => ?_⟩
  · simp only [MemStorage.getConversation] at hc
    simp only [MemStorage.updateConversation, hc, mergeConversation, Option.getD_none]
  · simp only [MemStorage.getGoal] at hg
    simp only [MemStorage.updateGoal, hg, mergeGoal, Option.getD_none]
  · simp only [MemStorage.getNote] at hn
    simp only [MemStorage.updateNote, hn, mergeNote, Option.getD_none]

/-- Store with one conversation, one goal and one note, used to witness
the update theorems on concrete input. -/
def wStore : MemStorage :=
  { conversations := [⟨1, "t", 0, 0⟩],
    messages := [],
    goals := [⟨2, "g", none, "work", 0, none, false, 0, 0⟩],
    notes := [⟨3, "n", "body", [], 0, 0⟩],
    activities := [],
    nextId := 4 }

/-- Witness for the empty-patch theorem at a concrete store. -/
theorem update_with_empty_patch_refreshes_only_updatedAt_witness :
    wStore.updateConversation 1 {} 9 =
      (some ⟨1, "t", 0, 9⟩, { wStore with conversations := [⟨1, "t", 0, 9⟩] }) ∧
    wStore.updateGoal 2 {} 9 =
      (some ⟨2, "g", none, "work", 0, none, false, 0, 9⟩,
       { wStore with goals := [⟨2, "g", none, "work", 0, none, false, 0, 9⟩] }) ∧
    wStore.updateNote 3 {} 9 =
      (some ⟨3, "n", "body", [], 0, 9⟩,
       { wStore with notes := [⟨3, "n", "body", [], 0, 9⟩] }) := by
  refine ⟨?_, ?_, ?_⟩
  · exact (update_with_empty_patch_refreshes_only_updatedAt wStore 1 9).1 ⟨1, "t", 0, 0⟩ rfl
  · exact (update_with_empty_patch_refreshes_only_updatedAt wStore 2 9).2.1
      ⟨2, "g", none, "work", 0, none, false, 0, 0⟩ rfl
  · exact (update_with_empty_patch_refreshes_only_updatedAt wStore 3 9).2.2
      ⟨3, "n", "body", [], 0, 0⟩ rfl

/-- Claim C10: for each of the three patchable entity kinds, a
patch-supplied id or updatedAt is ignored (the update result is the same
as for the patch with those fields removed; the record keeps the stored
id and gets updatedAt set to the current time), while a patch-supplied
createdAt does overwrite the stored createdAt. -/
theorem update_forces_id_and_updatedAt_but_not_createdAt
    (s : MemStorage) (id now : Nat) :
    (∀ (c : Conversation) (p : ConversationPatch), s.getConversation id = some c →
      s.updateConversation id p now =
        s.updateConversation id { p with id := none, updatedAt := none } now ∧
      s.updateConversation id p now =
        (some (mergeConversation c p now),
         { s with conversations := s.conversations.map (fun y => if y.id == id then mergeConversation c p now else y) }) ∧
      (mergeConversation c p now).id = c.id ∧
      (mergeConversation c p now).updatedAt = now ∧
      (mergeConversation c p now).createdAt = p.createdAt.getD c.createdAt) ∧
    (∀ (g : Goal) (p : GoalPatch), s.getGoal id = some g →
      s.updateGoal id p now =
        s.updateGoal id { p with id := none, updatedAt := none } now ∧
      s.updateGoal id p now =
        (some (mergeGoal g p now),
         { s with goals := s.goals.map (fun y => if y.id == id then mergeGoal g p now else y) }) ∧
      (mergeGoal g p now).id = g.id ∧
      (mergeGoal g p now).updatedAt = now ∧
      (mergeGoal g p now).createdAt = p.createdAt.getD g.createdAt) ∧
    (∀ (n : Note) (p : NotePatch), s.getNote id = some n →
      s.updateNote id p now =
        s.updateNote id { p with id := none, updatedAt := none } now ∧
      s.updateNote id p now =
        (some (mergeNote n p now),
         { s with notes := s.notes.map (fun y => if y.id == id then mergeNote n p now else y) }) ∧
      (mergeNote n p now).id = n.id ∧
      (mergeNote n p now).updatedAt = now ∧
      (mergeNote n p now).createdAt = p.createdAt.getD n.createdAt) := by
  refine ⟨fun c p hc => ?_, fun g p hg => ?_, fun n p hn => ?_⟩
  · simp only [MemStorage.getConversation] at hc
    exact ⟨by simp only [MemStorage.updateConversation, hc, mergeConversation],
      by simp only [MemStorage.updateConversation, hc], rfl, rfl, rfl⟩
  · simp only [MemStorage.getGoal] at hg
    exact ⟨by simp only [MemStorage.updateGoal, hg, mergeGoal],
      by simp only [MemStorage.updateGoal, hg], rfl, rfl, rfl⟩
  · simp only [MemStorage.getNote] at hn
    exact ⟨by simp only [MemStorage.updateNote, hn, mergeNote],
      by simp only [MemStorage.updateNote, hn], rfl, rfl, rfl⟩

/-- Witness for the forced-field theorem at a concrete store and a patch
that tries to overwrite id, createdAt and updatedAt. -/
theorem update_forces_id_and_updatedAt_but_not_createdAt_witness :
    wStore.updateConversation 1 { id := some 99, createdAt := some 7, updatedAt := some 8 } 9 =
      (some ⟨1, "t", 7, 9⟩, { wStore with conversations := [⟨1, "t", 7, 9⟩] }) ∧
    wStore.updateGoal 2 { id := some 99, createdAt := some 7, updatedAt := some 8 } 9 =
      (some ⟨2, "g", none, "work", 0, none, false, 7, 9⟩,
       { wStore with goals := [⟨2, "g", none, "work", 0, none, false, 7, 9⟩] }) ∧
    wStore.updateNote 3 { id := some 99, createdAt := some 7, updatedAt := some 8 } 9 =
      (some ⟨3, "n", "body", [], 7, 9⟩,
       { wStore with notes := [⟨3, "n", "body", [], 7, 9⟩] }) := by
  refine ⟨?_, ?_, ?_⟩
  · exact ((update_forces_id_and_updatedAt_but_not_createdAt wStore 1 9).1
      ⟨1, "t", 0, 0⟩ { id := some 99, createdAt := some 7, updatedAt := some 8 } rfl).2.1
  · exact ((update_forces_id_and_updatedAt_but_not_createdAt wStore 2 9).2.1
      ⟨2, "g", none, "work", 0, none, false, 0, 0⟩
      { id := some 99, createdAt := some 7, updatedAt := some 8 } rfl).2.1
  · exact ((update_forces_id_and_updatedAt_but_not_createdAt wStore 3 9).2.2
      ⟨3, "n", "body", [], 0, 0⟩
      { id := some 99, createdAt := some 7, updatedAt := some 8 } rfl).2.1

/-- Replay of a sequence of message insertions, each with its own
arrival time, against a starting store. -/
def runMessageInserts (s : MemStorage) (inserts : List (InsertMessage × Nat)) :
    MemStorage :=
  inserts.foldl (fun acc p => (acc.createMessage p.1 p.2).2) s

/-- Claim C6: after any interleaving of message insertions, listing the
messages of a conversation returns exactly the stored messages whose
conversationId equals that id, in non-decreasing createdAt order. -/
theorem getMessages_exactly_that_conversation_sorted
    (s0 : MemStorage) (inserts : List (InsertMessage × Nat)) (cid : Nat) :
    ((runMessageInserts s0 inserts).getMessages cid).Perm
      ((runMessageInserts s0 inserts).messages.filter
        (fun m => m.conversationId == cid)) ∧
    (∀ m, m ∈ (runMessageInserts s0 inserts).getMessages cid ↔
      m ∈ (runMessageInserts s0 inserts).messages ∧ m.conversationId = cid) ∧
    ((runMessageInserts s0 inserts).getMessages cid).Pairwise
      (fun a b => a.createdAt ≤ b.createdAt) := by
  refine ⟨List.perm_insertionSort _ _, fun m => ?_, ?_⟩
  · simp only [MemStorage.getMessages]
    rw [(List.perm_insertionSort msgCreatedLe _).mem_iff, List.mem_filter]
    simp [beq_iff_eq]
  · exact List.sorted_insertionSort msgCreatedLe _

/-- Claim C7: generateDailySummary masks provider failures for every
counter input: a thrown call (or unparseable output) yields the fixed
two-string catch fallback, and an output parsing to zero items yields
the fixed two-string empty-parse fallback, never an error or the empty
parsed result. -/
theorem generateDailySummary_masks_failures
    (chats goals notes : Nat) (provider : SummaryProvider) :
    (provider (dailySummaryPrompt chats goals notes) = .throws →
      generateDailySummary chats goals notes provider = summaryCatchFallback) ∧
    (provider (dailySummaryPrompt chats goals notes) = .parsed [] →
      generateDailySummary chats goals notes provider = summaryEmptyFallback) ∧
    summaryCatchFallback.length = 2 ∧ summaryEmptyFallback.length = 2 := by
  refine ⟨fun h => ?_, fun h => ?_, rfl, rfl⟩
  · simp [generateDailySummary, h]
  · simp [generateDailySummary, h]

/-- Witness for the failure-masking theorem: a provider that throws and
a provider whose output parses to zero items, at concrete counters. -/
theorem generateDailySummary_masks_failures_witness :
    generateDailySummary 3 1 2 (fun _ => .throws) = summaryCatchFallback ∧
    generateDailySummary 3 1 2 (fun _ => .parsed []) = summaryEmptyFallback :=
  ⟨(generateDailySummary_masks_failures 3 1 2 (fun _ => .throws)).1 rfl,
   (generateDailySummary_masks_failures 3 1 2 (fun _ => .parsed [])).2.1 rfl⟩

/-- Claim C5: a goal update on an existing goal logs exactly one
activity: goal_completed when the patch sets completed to true while the
stored goal had completed false, goal_updated in every other successful
case (including re-completing an already completed goal). -/
theorem patchGoal_logs_completed_or_updated
    (s : MemStorage) (id : Nat) (body : GoalPatch) (tUpd tAct : Nat)
    (g : Goal) (hg : s.getGoal id = some g) :
    (body.completed = some true → g.completed = false →
      patchGoal s id body tUpd tAct =
        (.ok (mergeGoal g body tUpd),
         { s with
           goals := s.goals.map (fun y => if y.id == id then mergeGoal g body tUpd else y),
           activities := s.activities ++ [⟨s.nextId, "goal_completed", "Completed goal: " ++ (mergeGoal g body tUpd).title, tAct⟩],
           nextId := s.nextId + 1 })) ∧
    (¬ (body.completed = some true ∧ g.completed = false) →
      patchGoal s id body tUpd tAct =
        (.ok (mergeGoal g body tUpd),
         { s with
           goals := s.goals.map (fun y => if y.id == id then mergeGoal g body tUpd else y),
           activities := s.activities ++ [⟨s.nextId, "goal_updated", "Updated goal: " ++ (mergeGoal g body tUpd).title, tAct⟩],
           nextId := s.nextId + 1 })) := by
  have hg' : s.goals.find? (fun y => y.id == id) = some g := hg
  constructor
  · intro hb hc
    simp only [patchGoal, MemStorage.getGoal, hg', MemStorage.updateGoal,
      MemStorage.createActivity, hb, hc]
    simp
  · intro h
    have hcond : (body.completed == some true && !g.completed) = false := by
      by_cases hb : body.completed = some true
      · have hgc : g.completed = true := by
          by_contra hgc
          exact h ⟨hb, by simpa using hgc⟩
        simp [hb, hgc]
      · have hb' : (body.completed == some true) = false := by
          simpa [beq_iff_eq] using hb
        simp [hb']
    simp only [patchGoal, MemStorage.getGoal, hg', MemStorage.updateGoal,
      MemStorage.createActivity, hcond]
    simp

/-- Witness for the goal-activity theorem: completing the stored
not-yet-completed goal logs goal_completed; a title-only patch logs
goal_updated. -/
theorem patchGoal_logs_completed_or_updated_witness :
    patchGoal wStore 2 { completed := some true, progress := some 100 } 9 10 =
      (.ok ⟨2, "g", none, "work", 100, none, true, 0, 9⟩,
       { wStore with
         goals := [⟨2, "g", none, "work", 100, none, true, 0, 9⟩],
         activities := [⟨4, "goal_completed", "Completed goal: g", 10⟩],
         nextId := 5 }) ∧
    patchGoal wStore 2 { title := some "g2" } 9 10 =
      (.ok ⟨2, "g2", none, "work", 0, none, false, 0, 9⟩,
       { wStore with
         goals := [⟨2, "g2", none, "work", 0, none, false, 0, 9⟩],
         activities := [⟨4, "goal_updated", "Updated goal: g2", 10⟩],
         nextId := 5 }) := by
  constructor
  · exact (patchGoal_logs_completed_or_updated wStore 2
      { completed := some true, progress := some 100 } 9 10
      ⟨2, "g", none, "work", 0, none, false, 0, 0⟩ rfl).1 rfl rfl
  · exact (patchGoal_logs_completed_or_updated wStore 2
      { title := some "g2" } 9 10
      ⟨2, "g", none, "work", 0, none, false, 0, 0⟩ rfl).2 (by simp)

/-! Claim C2 concerns bodies that do not conform to the schema, decided
at the runtime level of the PATCH routes. -/

/-- A stored note record as the system itself creates it. -/
def rawNoteA : JRecord :=
  [("id", .jstr "n1"), ("title", .jstr "Old title"), ("content", .jstr "Old content"),
   ("tags", .jarr []), ("createdAt", .jdate 0), ("updatedAt", .jdate 0)]

/-- A stored goal record as the system itself creates it. -/
def rawGoalA : JRecord :=
  [("id", .jstr "g1"), ("title", .jstr "Learn X"), ("description", .jnull),
   ("category", .jstr "learning"), ("progress", .jnum 0), ("targetDate", .jnull),
   ("completed", .jbool false), ("createdAt", .jdate 0), ("updatedAt", .jdate 0)]

/-- Runtime store holding one note and one goal. -/
def rawStore1 : RawStorage :=
  { notes := [("n1", rawNoteA)], goals := [("g1", rawGoalA)],
    activities := [], nextId := 7 }

/-- A PATCH body that does not conform to the note schema: title is a
number, not a string. -/
def badNoteBody : JRecord := [("title", .jnum 3)]

/-- Counterexample to claim C2: a note update whose body does not
conform to the note schema is not rejected with a 400-equivalent before
Storage is touched; the route succeeds, the non-conforming value is
merged into the stored note, and an Activity record is created. -/
theorem patchNote_invalid_body_counterexample :
    noteBodyConforms badNoteBody = false ∧
    (patchNoteRaw rawStore1 "n1" badNoteBody 5 6).1 =
      .ok [("id", .jstr "n1"), ("title", .jnum 3), ("content", .jstr "Old content"),
           ("tags", .jarr []), ("createdAt", .jdate 0), ("updatedAt", .jdate 5)] ∧
    (patchNoteRaw rawStore1 "n1" badNoteBody 5 6).2.notes =
      [("n1", [("id", .jstr "n1"), ("title", .jnum 3), ("content", .jstr "Old content"),
               ("tags", .jarr []), ("createdAt", .jdate 0), ("updatedAt", .jdate 5)])] ∧
    (patchNoteRaw rawStore1 "n1" badNoteBody 5 6).2.activities =
      [[("type", .jstr "note_updated"), ("description", .jstr "Updated note: 3"),
        ("id", .jstr "7"), ("createdAt", .jdate 6)]] :=
  ⟨rfl, rfl, rfl, rfl⟩

/-- Claim C2 as amended: the goal and note PATCH routes perform no
schema validation at all: for every body, conforming or not, an update
of an existing entity succeeds, merges the raw body into the stored
record (id preserved, updatedAt refreshed), and creates exactly one
Activity record. -/
theorem patch_routes_do_not_validate_body
    (s : RawStorage) (id : String) (body : JRecord) (tUpd tAct : Nat) :
    (∀ note, s.notes.find? (fun p => p.1 == id) = some (id, note) →
      patchNoteRaw s id body tUpd tAct =
        (.ok (jset (jset (jmerge note body) "id" (jget note "id")) "updatedAt" (.jdate tUpd)),
         { s with
           notes := s.notes.map (fun q => if q.1 == id then (q.1, jset (jset (jmerge note body) "id" (jget note "id")) "updatedAt" (.jdate tUpd)) else q),
           activities := s.activities ++ [[("type", .jstr "note_updated"), ("description", .jstr ("Updated note: " ++ jsToString (jget (jset (jset (jmerge note body) "id" (jget note "id")) "updatedAt" (.jdate tUpd)) "title"))), ("id", .jstr (toString s.nextId)), ("createdAt", .jdate tAct)]],
           nextId := s.nextId + 1 })) ∧
    (∀ goal, s.goals.find? (fun p => p.1 == id) = some (id, goal) →
      (patchGoalRaw s id body tUpd tAct).1 =
        .ok (jset (jset (jmerge goal body) "id" (jget goal "id")) "updatedAt" (.jdate tUpd)) ∧
      (patchGoalRaw s id body tUpd tAct).2.goals =
        s.goals.map (fun q => if q.1 == id then (q.1, jset (jset (jmerge goal body) "id" (jget goal "id")) "updatedAt" (.jdate tUpd)) else q) ∧
      (patchGoalRaw s id body tUpd tAct).2.activities.length =
        s.activities.length + 1) := by
  constructor
  · intro note hn
    simp only [patchNoteRaw, RawStorage.updateNote, hn, RawStorage.createActivity,
      jset, jhas, List.find?]
    simp
  · intro goal hg
    simp only [patchGoalRaw, RawStorage.updateGoal, hg, RawStorage.createActivity]
    by_cases hc : (jvalIsTrue (jget body "completed") && !jsTruthy (jget goal "completed")) = true
    · simp [hc, jset, jhas]
    · simp only [Bool.not_eq_true] at hc
      simp [hc, jset, jhas]

/-- Witness for the no-validation theorem at the concrete runtime store,
with the non-conforming body. -/
theorem patch_routes_do_not_validate_body_witness :
    patchNoteRaw rawStore1 "n1" badNoteBody 5 6 =
      (.ok [("id", .jstr "n1"), ("title", .jnum 3), ("content", .jstr "Old content"),
            ("tags", .jarr []), ("createdAt", .jdate 0), ("updatedAt", .jdate 5)],
       { rawStore1 with
         notes := [("n1", [("id", .jstr "n1"), ("title", .jnum 3), ("content", .jstr "Old content"), ("tags", .jarr []), ("createdAt", .jdate 0), ("updatedAt", .jdate 5)])],
         activities := [[("type", .jstr "note_updated"), ("description", .jstr "Updated note: 3"), ("id", .jstr "7"), ("createdAt", .jdate 6)]],
         nextId := 8 }) ∧
    (patchGoalRaw rawStore1 "g1" badNoteBody 5 6).2.activities.length =
      rawStore1.activities.length + 1 := by
  refine ⟨?_, ?_⟩
  · exact (patch_routes_do_not_validate_body rawStore1 "n1" badNoteBody 5 6).1
      rawNoteA rfl
  · exact ((patch_routes_do_not_validate_body rawStore1 "g1" badNoteBody 5 6).2
      rawGoalA rfl).2.2

/-! Gateway helper lemmas. -/

/-- With a provider that throws, chatWithAI rethrows the distinct
generation-failed error for every message and history. -/
theorem chatWithAI_of_error {provider : ChatProvider}
    (hp : ∀ c, provider c = Except.error ()) (m : String)
    (hist : List (String × String)) :
    chatWithAI m hist provider = .error "Failed to get AI response" := by
  simp only [chatWithAI, hp]

/-- With a provider that answers with text t, chatWithAI returns t, or
the fixed fallback sentence when t is empty. -/
theorem chatWithAI_of_ok {provider : ChatProvider} {t : String}
    (hp : ∀ c, provider c = Except.ok t) (m : String)
    (hist : List (String × String)) :
    chatWithAI m hist provider = .ok (if t == "" then chatFallbackText else t) := by
  simp only [chatWithAI, hp]

/-- When the provider throws, the chat pipeline stops right after the
user message was persisted: the handler surfaces a 500 and the only
store change is the appended user message. -/
theorem chatSteps_of_provider_error {provider : ChatProvider}
    (hp : ∀ c, provider c = Except.error ())
    (s : MemStorage) (convId : Nat) (m : String)
    (tUser tAi tTouch tUpd tAct : Nat) :
    chatSteps s convId m provider tUser tAi tTouch tUpd tAct =
      (.serverError "Failed to process chat message",
       { s with messages := s.messages ++ [⟨s.nextId, convId, "user", m, tUser⟩],
                nextId := s.nextId + 1 }) := by
  simp only [chatSteps, MemStorage.createMessage, chatWithAI_of_error hp]

/-- Claim C1 as amended: a chat request whose conversationId is present,
truthy, and does not identify an existing conversation fails with the
not-found error and leaves the store completely unchanged.  (A present
but falsy conversationId, modelled by 0, is instead treated as absent:
see the counterexample.) -/
theorem postChat_unknown_truthy_id_not_found
    (s : MemStorage) (m : String) (cid : Nat) (provider : ChatProvider)
    (tConv tUser tAi tTouch tUpd tAct : Nat)
    (hm : ¬ m = "") (hcid : ¬ cid = 0) (hmiss : s.getConversation cid = none) :
    postChat s { message := some m, conversationId := some cid } provider
      tConv tUser tAi tTouch tUpd tAct = (.notFound "Conversation not found", s) := by
  simp [postChat, hm, hcid, hmiss]

/-- Witness for the amended not-found theorem: an unknown truthy id
against the concrete store. -/
theorem postChat_unknown_truthy_id_not_found_witness :
    postChat wStore { message := some "hi", conversationId := some 5 }
      (fun _ => Except.ok "x") 0 0 0 0 0 0 =
      (.notFound "Conversation not found", wStore) :=
  postChat_unknown_truthy_id_not_found wStore "hi" 5 (fun _ => Except.ok "x")
    0 0 0 0 0 0 (by decide) (by decide) rfl

/-- Counterexample to claim C1 as stated: with conversationId present
but falsy (the empty string, modelled by 0), which identifies no
existing conversation, the handler does not return not-found and does
write: it creates a conversation, two messages and an activity. -/
theorem postChat_falsy_id_creates_counterexample :
    postChat MemStorage.empty { message := some "hi", conversationId := some 0 }
      (fun _ => Except.ok "yo") 1 2 3 4 5 6 =
      (ApiResult.ok { message := ⟨3, 1, "assistant", "yo", 3⟩, conversationId := 1 },
       { conversations := [⟨1, "hi", 1, 5⟩],
         messages := [⟨2, 1, "user", "hi", 2⟩, ⟨3, 1, "assistant", "yo", 3⟩],
         goals := [], notes := [],
         activities := [⟨4, "chat", "Had a conversation about: hi", 6⟩],
         nextId := 5 }) ∧
    ¬ (postChat MemStorage.empty { message := some "hi", conversationId := some 0 }
        (fun _ => Except.ok "yo") 1 2 3 4 5 6).1 = .notFound "Conversation not found" ∧
    ¬ (postChat MemStorage.empty { message := some "hi", conversationId := some 0 }
        (fun _ => Except.ok "yo") 1 2 3 4 5 6).2 = MemStorage.empty := by
  refine ⟨rfl, by decide, by decide⟩

/-- Claim C4: when the gateway call fails, the chat operation surfaces
an error while the records already written stay in the store: against an
existing conversation the user message is persisted and nothing else
changes; with conversationId omitted the freshly created conversation
(with its creation timestamps) and the user message are persisted; in
neither case is an assistant message, a conversation-timestamp update,
or a chat activity written. -/
theorem postChat_gateway_failure_keeps_written_records
    (s : MemStorage) (m : String) (provider : ChatProvider)
    (tConv tUser tAi tTouch tUpd tAct : Nat)
    (hm : ¬ m = "") (hp : ∀ c, provider c = Except.error ()) :
    (∀ cid conv, ¬ cid = 0 → s.getConversation cid = some conv →
      postChat s { message := some m, conversationId := some cid } provider
        tConv tUser tAi tTouch tUpd tAct =
        (.serverError "Failed to process chat message",
         { s with messages := s.messages ++ [⟨s.nextId, cid, "user", m, tUser⟩],
                  nextId := s.nextId + 1 })) ∧
    (postChat s { message := some m, conversationId := none } provider
        tConv tUser tAi tTouch tUpd tAct =
      (.serverError "Failed to process chat message",
       { s with conversations := s.conversations ++ [⟨s.nextId, chatAutoTitle m, tConv, tConv⟩],
                messages := s.messages ++ [⟨s.nextId + 1, s.nextId, "user", m, tUser⟩],
                nextId := s.nextId + 2 })) := by
  constructor
  · intro cid conv hcid hconv
    simp [postChat, hm, hcid, hconv, chatSteps_of_provider_error hp]
  · simp [postChat, hm, chatResolveCreate, MemStorage.createConversation,
      chatSteps_of_provider_error hp]

/-- Witness for the gateway-failure theorem: both the existing- and the
fresh-conversation cases at the concrete store. -/
theorem postChat_gateway_failure_keeps_written_records_witness :
    postChat wStore { message := some "hi", conversationId := some 1 }
      (fun _ => Except.error ()) 0 1 2 3 4 5 =
      (.serverError "Failed to process chat message",
       { wStore with messages := [⟨4, 1, "user", "hi", 1⟩], nextId := 5 }) ∧
    postChat wStore { message := some "hi", conversationId := none }
      (fun _ => Except.error ()) 0 1 2 3 4 5 =
      (.serverError "Failed to process chat message",
       { wStore with conversations := [⟨1, "t", 0, 0⟩, ⟨4, "hi", 0, 0⟩],
                     messages := [⟨5, 4, "user", "hi", 1⟩], nextId := 6 }) := by
  have h := postChat_gateway_failure_keeps_written_records wStore "hi"
    (fun _ => Except.error ()) 0 1 2 3 4 5 (by decide) (fun _ => rfl)
  exact ⟨h.1 1 ⟨1, "t", 0, 0⟩ (by decide) rfl, h.2⟩

/-- Taking at least the whole length of a string returns it unchanged. -/
theorem jsSubstring_of_length_le (s : String) (n : Nat) (h : s.length ≤ n) :
    jsSubstring s n = s :=
  String.ext (List.take_of_length_le h)

/-- Claim C8: a chat request with conversationId omitted creates a
conversation whose title is the message itself when the message has at
most 50 characters, and the first 50 characters followed by the ellipsis
marker when it is longer; this holds whatever the gateway outcome. -/
theorem postChat_auto_title_truncation
    (s : MemStorage) (m : String) (provider : ChatProvider)
    (tConv tUser tAi tTouch tUpd tAct : Nat)
    (hwf : s.WF) (hm : ¬ m = "") :
    ((postChat s { message := some m, conversationId := none } provider
        tConv tUser tAi tTouch tUpd tAct).2.conversations.map (fun c => c.title))
      = s.conversations.map (fun c => c.title) ++ [chatAutoTitle m] ∧
    (m.length ≤ 50 → chatAutoTitle m = m) ∧
    (50 < m.length → chatAutoTitle m = jsSubstring m 50 ++ "...") := by
  refine ⟨?_, fun h => ?_, fun h => ?_⟩
  · have hconvs : ∀ c ∈ s.conversations, c.id < s.nextId := hwf.1
    have hfind : (s.conversations ++ [(⟨s.nextId, chatAutoTitle m, tConv, tConv⟩ : Conversation)]).find?
        (fun c => c.id == s.nextId) = some ⟨s.nextId, chatAutoTitle m, tConv, tConv⟩ := by
      rw [List.find?_append, find?_beq_eq_none Conversation.id s.conversations s.nextId hconvs]
      simp
    simp only [postChat, chatResolveCreate, MemStorage.createConversation, chatSteps,
      MemStorage.createMessage, MemStorage.updateConversation, MemStorage.createActivity]
    simp only [hm, if_false, ite_false, beq_iff_eq]
    split
    · simp
    · simp only [hfind, mergeConversation]
      rw [List.map_append, map_if_eq_eq_self Conversation.id _ s.conversations s.nextId hconvs]
      simp
  · simp only [chatAutoTitle, jsSubstring_of_length_le m 50 h, Nat.not_lt.mpr h, if_false]
    simp
  · simp [chatAutoTitle, h]

/-- A seventy-character message, used to witness the truncation claim. -/
def seventyCharMessage : String :=
  "0123456789012345678901234567890123456789012345678901234567890123456789"

/-- Witness for the truncation theorem: the scenario of a 70-character
message, whose auto-created conversation title is the first 50
characters plus the ellipsis marker. -/
theorem postChat_auto_title_truncation_witness :
    ((postChat MemStorage.empty { message := some seventyCharMessage, conversationId := none }
        (fun _ => Except.ok "r") 1 2 3 4 5 6).2.conversations.map (fun c => c.title))
      = [chatAutoTitle seventyCharMessage] ∧
    chatAutoTitle seventyCharMessage =
      "01234567890123456789012345678901234567890123456789" ++ "..." := by
  have h := postChat_auto_title_truncation MemStorage.empty seventyCharMessage
    (fun _ => Except.ok "r") 1 2 3 4 5 6 (by decide) (by decide)
  exact ⟨h.1, h.2.2 (by decide)⟩

/-- Claim C3: a chat request with conversationId omitted, when the
gateway call succeeds, creates exactly one conversation, exactly two
messages in it (the user message with the input first, then the
assistant message with the gateway reply), and exactly one chat
activity; everything already in the store is unchanged, and the new
conversation carries the final touch timestamp. -/
theorem postChat_new_conversation_success
    (s : MemStorage) (m t : String) (provider : ChatProvider)
    (tConv tUser tAi tTouch tUpd tAct : Nat)
    (hwf : s.WF) (hm : ¬ m = "") (hts : tUser ≤ tAi)
    (hp : ∀ c, provider c = Except.ok t) :
    postChat s { message := some m, conversationId := none } provider
        tConv tUser tAi tTouch tUpd tAct =
      (.ok { message := ⟨s.nextId + 2, s.nextId, "assistant",
               (if t == "" then chatFallbackText else t), tAi⟩,
             conversationId := s.nextId },
       { conversations := s.conversations ++ [⟨s.nextId, chatAutoTitle m, tConv, tUpd⟩],
         messages := s.messages ++
           [⟨s.nextId + 1, s.nextId, "user", m, tUser⟩,
            ⟨s.nextId + 2, s.nextId, "assistant", (if t == "" then chatFallbackText else t), tAi⟩],
         goals := s.goals, notes := s.notes,
         activities := s.activities ++ [⟨s.nextId + 3, "chat", chatActivityDescription m, tAct⟩],
         nextId := s.nextId + 4 }) ∧
    (postChat s { message := some m, conversationId := none } provider
        tConv tUser tAi tTouch tUpd tAct).2.getMessages s.nextId =
      [⟨s.nextId + 1, s.nextId, "user", m, tUser⟩,
       ⟨s.nextId + 2, s.nextId, "assistant", (if t == "" then chatFallbackText else t), tAi⟩] := by
  have hconvs : ∀ c ∈ s.conversations, c.id < s.nextId := hwf.1
  have hmsgs : ∀ x ∈ s.messages, x.conversationId < s.nextId :=
    fun x hx => (hwf.2.1 x hx).2
  have hfind : (s.conversations ++ [(⟨s.nextId, chatAutoTitle m, tConv, tConv⟩ : Conversation)]).find?
      (fun c => c.id == s.nextId) = some ⟨s.nextId, chatAutoTitle m, tConv, tConv⟩ := by
    rw [List.find?_append, find?_beq_eq_none Conversation.id s.conversations s.nextId hconvs]
    simp
  have hfilter : (s.messages ++ [(⟨s.nextId + 1, s.nextId, "user", m, tUser⟩ : Message)]).filter
      (fun x => x.conversationId == s.nextId) = [⟨s.nextId + 1, s.nextId, "user", m, tUser⟩] := by
    rw [List.filter_append, filter_beq_eq_nil Message.conversationId s.messages s.nextId hmsgs]
    simp
  have hmain : postChat s { message := some m, conversationId := none } provider
      tConv tUser tAi tTouch tUpd tAct =
      (.ok { message := ⟨s.nextId + 2, s.nextId, "assistant",
               (if t == "" then chatFallbackText else t), tAi⟩,
             conversationId := s.nextId },
       { conversations := s.conversations ++ [⟨s.nextId, chatAutoTitle m, tConv, tUpd⟩],
         messages := s.messages ++
           [⟨s.nextId + 1, s.nextId, "user", m, tUser⟩,
            ⟨s.nextId + 2, s.nextId, "assistant", (if t == "" then chatFallbackText else t), tAi⟩],
         goals := s.goals, notes := s.notes,
         activities := s.activities ++ [⟨s.nextId + 3, "chat", chatActivityDescription m, tAct⟩],
         nextId := s.nextId + 4 }) := by
    simp only [postChat, chatResolveCreate, MemStorage.createConversation, chatSteps,
      MemStorage.createMessage, MemStorage.getMessages]
    simp only [hm, if_false, ite_false, beq_iff_eq]
    simp only [hfilter, List.insertionSort, List.orderedInsert]
    simp only [List.filter_cons, List.filter_nil, bne_self_eq_false, List.map_nil,
      Bool.false_eq_true, if_false, chatWithAI_of_ok hp]
    simp only [MemStorage.updateConversation, hfind, mergeConversation,
      MemStorage.createActivity]
    simp only [beq_iff_eq, List.map_append,
      map_if_eq_eq_self Conversation.id _ s.conversations s.nextId hconvs]
    simp
  refine ⟨hmain, ?_⟩
  rw [hmain]
  have hsorted : List.Sorted msgCreatedLe
      [(⟨s.nextId + 1, s.nextId, "user", m, tUser⟩ : Message),
       ⟨s.nextId + 2, s.nextId, "assistant", (if t == "" then chatFallbackText else t), tAi⟩] := by
    simp [List.sorted_cons, msgCreatedLe, hts]
  simp only [MemStorage.getMessages]
  rw [List.filter_append, filter_beq_eq_nil Message.conversationId s.messages s.nextId hmsgs]
  simp only [List.filter_cons, List.filter_nil, beq_self_eq_true, if_true, List.nil_append]
  rw [List.Sorted.insertionSort_eq hsorted]

/-- Witness for the chat success theorem at the empty store with a
concrete message and gateway reply. -/
theorem postChat_new_conversation_success_witness :
    postChat MemStorage.empty { message := some "hello", conversationId := none }
        (fun _ => Except.ok "reply") 1 2 3 4 5 6 =
      (ApiResult.ok { message := ⟨3, 1, "assistant", "reply", 3⟩, conversationId := 1 },
       { conversations := [⟨1, "hello", 1, 5⟩],
         messages := [⟨2, 1, "user", "hello", 2⟩, ⟨3, 1, "assistant", "reply", 3⟩],
         goals := [], notes := [],
         activities := [⟨4, "chat", "Had a conversation about: hello", 6⟩],
         nextId := 5 }) ∧
    (postChat MemStorage.empty { message := some "hello", conversationId := none }
        (fun _ => Except.ok "reply") 1 2 3 4 5 6).2.getMessages 1 =
      [⟨2, 1, "user", "hello", 2⟩, ⟨3, 1, "assistant", "reply", 3⟩] :=
  postChat_new_conversation_success MemStorage.empty "hello" "reply"
    (fun _ => Except.ok "reply") 1 2 3 4 5 6 (by decide) (by decide) (by decide)
    (fun _ => rfl)

end AstraMind
